import Mathlib

/-!
Verification of the deterministic pricing and calculation engine of the
Tiling Quotation Formatter application.

The development shallowly embeds the TypeScript sources:

* `src/services/calculationService.ts` (`calculateTotals`): the totals
  aggregation pipeline.  JavaScript numbers are modelled as rationals; a
  field that may hold a non-numeric value (so that `Number(x) || 0`
  coerces it to `0`) is modelled as `Option ℚ` with `none` standing for a
  malformed or `NaN`-coercing value.  Optional document fields (absent on
  invoices or on old documents) are modelled as `Option` as well, with
  `none` standing for an absent key, matching the source's
  `'field' in data` and `?? default` checks.

* `src/components/EditTilesModal.tsx` (`getCoverageRate`,
  `handleTileChange`): coverage-rate resolution by category keywords and
  the sqm/cartons/wastage reconciliation logic.  JavaScript string
  operations (`toLowerCase`, `trim`, `includes`) are embedded as
  executable functions on character lists, and `parseFloat(x.toFixed(2))`
  as decimal rounding to 2 places (round half up, which is `toFixed`'s
  behaviour on the positive values these code paths feed it).
-/

namespace TQF

/-- JavaScript coercion `Number(x) || 0` applied to a possibly malformed
numeric field: a well-formed number passes through, anything that coerces
to `NaN` (and `0` itself) contributes `0`. -/
def toNum : Option ℚ → ℚ
  | some q => q
  | none => 0

/-- JavaScript truthiness of a `number | null` field: `null` (modelled
`none`) and `0` are falsy, every other number is truthy. -/
def jsTruthyNum : Option ℚ → Bool
  | some q => decide (q ≠ 0)
  | none => false

/-- Tile line item as read by the calculation service (`tile.sqm`,
`tile.cartons`, `tile.unitPrice`, each defensively coerced). -/
structure CalcTile where
  sqm : Option ℚ
  cartons : Option ℚ
  unitPrice : Option ℚ
  deriving DecidableEq

/-- Material line item as read by the calculation service. -/
structure CalcMaterial where
  quantity : Option ℚ
  unitPrice : Option ℚ
  deriving DecidableEq

/-- Adjustment line as read by the calculation service. -/
structure CalcAdjustment where
  amount : Option ℚ
  deriving DecidableEq

/-- The fields of `QuotationData` / `InvoiceData` consulted by
`calculateTotals`.  `tiles`/`materials`/`adjustments` are `none` when the
field is absent or not an array (the source guards with
`Array.isArray`); the boolean flags are `none` when the key is absent
(`'showTax' in data`, `?? true`); `profitPercentage` and
`depositPercentage` are `none` when `null` or absent. -/
structure CalcDoc where
  tiles : Option (List CalcTile)
  materials : Option (List CalcMaterial)
  workmanshipRate : Option ℚ
  maintenance : Option ℚ
  profitPercentage : Option ℚ
  showMaterials : Option Bool
  showAdjustments : Option Bool
  showWorkmanship : Option Bool
  showMaintenance : Option Bool
  showTax : Option Bool
  adjustments : Option (List CalcAdjustment)
  depositPercentage : Option ℚ
  deriving DecidableEq

/-- The fields of the `Settings` profile consulted by the embedded code:
the ten coverage rates and `wastageFactor` (EditTilesModal), the tax and
visibility defaults (calculationService), and the settings fields that
claims assert are never consulted (`showMaterialsDefault`,
`showAdjustmentsDefault`, `tilePricesBySize`). -/
structure Settings where
  sittingRoomTileM2PerCarton : ℚ
  roomTileM2PerCarton : ℚ
  toiletWallTileM2PerCarton : ℚ
  toiletFloorTileM2PerCarton : ℚ
  kitchenWallTileM2PerCarton : ℚ
  kitchenFloorTileM2PerCarton : ℚ
  externalWallTileM2PerCarton : ℚ
  stepTileM2PerCarton : ℚ
  wallTileM2PerCarton : ℚ
  floorTileM2PerCarton : ℚ
  wastageFactor : ℚ
  taxPercentage : ℚ
  showTax : Bool
  showMaintenance : Bool
  showMaterialsDefault : Bool
  showAdjustmentsDefault : Bool
  tilePricesBySize : List (String × ℚ)
  deriving DecidableEq

/-- The summary object returned by `calculateTotals`. -/
structure Totals where
  totalSqm : ℚ
  totalTileCost : ℚ
  totalMaterialCost : ℚ
  workmanshipCost : ℚ
  workmanshipAndMaintenance : ℚ
  profitAmount : ℚ
  subtotal : ℚ
  totalAdjustments : ℚ
  taxAmount : ℚ
  grandTotal : ℚ
  depositAmount : ℚ
  deriving DecidableEq

/-- Embedding of `calculateTotals` from `src/services/calculationService.ts`,
statement by statement.  `reduce((acc, x) => acc + f x, 0)` becomes
`List.foldl`; `Number(x) || 0` becomes `toNum`; the truthiness guards on
`profitPercentage` and `data.depositPercentage` become `jsTruthyNum`. -/
def calculateTotals (data : CalcDoc) (settings : Settings) : Totals :=
  let showTax := data.showTax.getD settings.showTax
  let showMaintenance := data.showMaintenance.getD settings.showMaintenance
  let showWorkmanship := data.showWorkmanship.getD true
  let taxPercentage := settings.taxPercentage
  let showMaterials := data.showMaterials.getD true
  let showAdjustments := data.showAdjustments.getD true
  let safeTiles := data.tiles.getD []
  let safeMaterials := data.materials.getD []
  let totalSqm := safeTiles.foldl (fun acc tile => acc + toNum tile.sqm) 0
  let totalTileCost :=
    safeTiles.foldl (fun acc tile => acc + toNum tile.cartons * toNum tile.unitPrice) 0
  let totalMaterialCost :=
    if showMaterials then
      safeMaterials.foldl (fun acc mat => acc + toNum mat.quantity * toNum mat.unitPrice) 0
    else 0
  let workmanshipCost :=
    if showWorkmanship then totalSqm * toNum data.workmanshipRate else 0
  let workmanshipAndMaintenance :=
    workmanshipCost + (if showMaintenance then toNum data.maintenance else 0)
  let preProfitTotal := totalTileCost + totalMaterialCost + workmanshipAndMaintenance
  let profitAmount :=
    if jsTruthyNum data.profitPercentage then
      preProfitTotal * (toNum data.profitPercentage / 100)
    else 0
  let subtotal := preProfitTotal + profitAmount
  let totalAdjustments :=
    if showAdjustments then
      match data.adjustments with
      | some adjs => adjs.foldl (fun acc adj => acc + toNum adj.amount) 0
      | none => 0
    else 0
  let postAdjustmentSubtotal := subtotal + totalAdjustments
  let taxAmount :=
    if showTax then postAdjustmentSubtotal * (taxPercentage / 100) else 0
  let grandTotal := postAdjustmentSubtotal + taxAmount
  let depositAmount :=
    if jsTruthyNum data.depositPercentage then
      grandTotal * (toNum data.depositPercentage / 100)
    else 0
  { totalSqm := totalSqm
    totalTileCost := totalTileCost
    totalMaterialCost := totalMaterialCost
    workmanshipCost := workmanshipCost
    workmanshipAndMaintenance := workmanshipAndMaintenance
    profitAmount := profitAmount
    subtotal := subtotal
    totalAdjustments := totalAdjustments
    taxAmount := taxAmount
    grandTotal := grandTotal
    depositAmount := depositAmount }

/-- Lowercasing of one character, as JavaScript `toLowerCase` acts on the
ASCII categories the tile-category keywords use. -/
def lowerChar (c : Char) : Char :=
  if 65 ≤ c.toNat ∧ c.toNat ≤ 90 then Char.ofNat (c.toNat + 32) else c

/-- Whitespace test used by JavaScript `trim` (the ASCII whitespace
characters that can occur in category input). -/
def isJsSpace (c : Char) : Bool :=
  c == ' ' || c == '\t' || c == '\n' || c == '\r'

/-- Strip whitespace from both ends of a character list. -/
def trimList (l : List Char) : List Char :=
  ((l.dropWhile isJsSpace).reverse.dropWhile isJsSpace).reverse

/-- Embedding of `category.toLowerCase().trim()`. -/
def lowerTrim (s : String) : String :=
  ⟨trimList (s.data.map lowerChar)⟩

/-- Whether the first list is an initial segment of the second. -/
def leadsWith : List Char → List Char → Bool
  | [], _ => true
  | _ :: _, [] => false
  | a :: as, b :: bs => a == b && leadsWith as bs

/-- Whether the first list occurs contiguously inside the second. -/
def hasSubList : List Char → List Char → Bool
  | pat, [] => leadsWith pat []
  | pat, c :: rest => leadsWith pat (c :: rest) || hasSubList pat rest

/-- Embedding of JavaScript `s.includes(pat)`. -/
def strIncludes (s pat : String) : Bool := hasSubList pat.data s.data

/-- First keyword bucket of `getCoverageRate`: sitting/living room. -/
def isSittingBucket (cat : String) : Bool :=
  cat == "sr" || cat == "lr" || strIncludes cat "sitting" ||
    strIncludes cat "living" || strIncludes cat "parlour" || strIncludes cat "dining"

/-- Second keyword bucket of `getCoverageRate`: bedroom/room. -/
def isRoomBucket (cat : String) : Bool :=
  cat == "br" || cat == "mbr" || strIncludes cat "bedroom" ||
    strIncludes cat "room" || strIncludes cat "guest" || strIncludes cat "store"

/-- Toilet-wall keyword bucket of `getCoverageRate`. -/
def isToiletWallBucket (cat : String) : Bool :=
  cat == "tw" || (strIncludes cat "toilet" && strIncludes cat "wall") ||
    (strIncludes cat "bathroom" && strIncludes cat "wall")

/-- Toilet-floor keyword bucket of `getCoverageRate`. -/
def isToiletFloorBucket (cat : String) : Bool :=
  cat == "tf" || (strIncludes cat "toilet" && strIncludes cat "floor") ||
    (strIncludes cat "bathroom" && strIncludes cat "floor")

/-- Kitchen-wall keyword bucket of `getCoverageRate`. -/
def isKitchenWallBucket (cat : String) : Bool :=
  cat == "kw" || (strIncludes cat "kitchen" && strIncludes cat "wall")

/-- Kitchen-floor keyword bucket of `getCoverageRate`. -/
def isKitchenFloorBucket (cat : String) : Bool :=
  cat == "kf" || (strIncludes cat "kitchen" && strIncludes cat "floor")

/-- External-wall keyword bucket of `getCoverageRate`. -/
def isExternalBucket (cat : String) : Bool :=
  cat == "ext" || strIncludes cat "external" || strIncludes cat "outside" ||
    strIncludes cat "facade"

/-- Step keyword bucket of `getCoverageRate`. -/
def isStepBucket (cat : String) : Bool :=
  cat == "step" || strIncludes cat "step" || strIncludes cat "stair"

/-- Embedding of `getCoverageRate` from `src/components/EditTilesModal.tsx`:
the normalized category is tested against the keyword buckets in source
order, falling back to the generic wall bucket and finally to the generic
floor rate. -/
def getCoverageRate (category : String) (settings : Settings) : ℚ :=
  let cat := lowerTrim category
  if isSittingBucket cat then settings.sittingRoomTileM2PerCarton
  else if isRoomBucket cat then settings.roomTileM2PerCarton
  else if isToiletWallBucket cat then settings.toiletWallTileM2PerCarton
  else if isToiletFloorBucket cat then settings.toiletFloorTileM2PerCarton
  else if isKitchenWallBucket cat then settings.kitchenWallTileM2PerCarton
  else if isKitchenFloorBucket cat then settings.kitchenFloorTileM2PerCarton
  else if isExternalBucket cat then settings.externalWallTileM2PerCarton
  else if isStepBucket cat then settings.stepTileM2PerCarton
  else if strIncludes cat "wall" then settings.wallTileM2PerCarton
  else settings.floorTileM2PerCarton

/-- Value of a numeric form field in the modal's local state: a number, a
string parsing to a number, the empty string, or a non-numeric string.
`parseFloat` of the latter two is `NaN`. -/
inductive JSNumVal where
  | num (q : ℚ)
  | strNum (q : ℚ)
  | strEmpty
  | strBad
  deriving DecidableEq

/-- Embedding of `typeof v === 'string' ? parseFloat(v) : v`, with `none`
for `NaN`. -/
def parseNum : JSNumVal → Option ℚ
  | .num q => some q
  | .strNum q => some q
  | .strEmpty => none
  | .strBad => none

/-- The modal's `EditableTile` local state: numeric fields may hold
strings while the user is typing. -/
structure EditableTile where
  category : String
  group : Option String
  size : Option String
  tileType : String
  sqm : JSNumVal
  cartons : JSNumVal
  unitPrice : JSNumVal
  addWastage : Option Bool
  deriving DecidableEq

/-- One `handleTileChange(index, field, value)` event: the edited field
together with the value the input handed in. -/
inductive FieldUpdate where
  | sqm (v : JSNumVal)
  | cartons (v : JSNumVal)
  | unitPrice (v : JSNumVal)
  | category (s : String)
  | size (s : String)
  | group (s : String)
  | tileType (s : String)
  | addWastage (b : Bool)
  deriving DecidableEq

/-- Embedding of `parseFloat(x.toFixed(2))`: rounding to 2 decimal places,
half up, which is `toFixed`'s decimal behaviour on the positive values
these code paths produce. -/
def round2 (x : ℚ) : ℚ := ((⌊x * 100 + 1/2⌋ : ℤ) : ℚ) / 100

/-- Embedding of `Math.ceil(sqm / rate)` as stored back into the cartons
field. -/
def ceilDiv (sqm rate : ℚ) : ℤ := ⌈sqm / rate⌉

/-- Embedding of `handleTileChange` from `src/components/EditTilesModal.tsx`
(the per-tile update logic; the surrounding array copy is index plumbing).
The coverage rate is resolved from the new category when the category is
the edited field, otherwise from the tile's current category; the edited
field is written first, then the sqm/cartons/wastage reconciliation
branches run exactly as in the source. -/
def handleTileChange (settings : Settings) (tile : EditableTile)
    (u : FieldUpdate) : EditableTile :=
  let currentRate :=
    getCoverageRate
      (match u with
        | .category c => c
        | _ => tile.category) settings
  let wastageFactor := settings.wastageFactor
  match u with
  | .addWastage isAdding =>
      let t := { tile with addWastage := some isAdding }
      match parseNum tile.sqm with
      | some numSqm =>
          if numSqm > 0 then
            let adjustedSqm :=
              if isAdding then numSqm * wastageFactor else numSqm / wastageFactor
            let newSqm := round2 adjustedSqm
            { t with sqm := .num newSqm,
                     cartons := .num ((ceilDiv newSqm currentRate : ℤ) : ℚ) }
          else t
      | none => t
  | .sqm v =>
      let t := { tile with sqm := v }
      match parseNum v with
      | some numSqm =>
          if numSqm > 0 then
            { t with cartons := .num ((ceilDiv numSqm currentRate : ℤ) : ℚ) }
          else if v = .strEmpty then { t with cartons := .num 0 }
          else t
      | none =>
          if v = .strEmpty then { t with cartons := .num 0 } else t
  | .category c =>
      let t := { tile with category := c }
      match parseNum tile.sqm with
      | some numSqm =>
          if numSqm > 0 then
            { t with cartons := .num ((ceilDiv numSqm currentRate : ℤ) : ℚ) }
          else t
      | none => t
  | .cartons v =>
      let t := { tile with cartons := v }
      match parseNum v with
      | some numCartons =>
          if numCartons > 0 then
            { t with sqm := .num (round2 (numCartons * currentRate)) }
          else if v = .strEmpty then { t with sqm := .num 0 }
          else t
      | none =>
          if v = .strEmpty then { t with sqm := .num 0 } else t
  | .unitPrice v => { tile with unitPrice := v }
  | .size s => { tile with size := some s }
  | .group s => { tile with group := some s }
  | .tileType s => { tile with tileType := s }

/-- State-passing view of one call to `calculateTotals`.  The source body
of `calculateTotals` declares only local `const`s and never assigns to
`data`, `settings` or any of their fields or array elements, so the
caller-visible state after the call is exactly the state before it; the
call's entire effect is the returned summary. -/
def calculateTotalsCall (data : CalcDoc) (settings : Settings) :
    Totals × CalcDoc × Settings :=
  (calculateTotals data settings, data, settings)

/-- Replace a possibly malformed numeric field by the number it coerces
to under `Number(x) || 0`. -/
def sanitizeNum (o : Option ℚ) : Option ℚ := some (toNum o)

/-- Well-formed version of a tile line: every malformed numeric field
replaced by the `0` it contributes. -/
def sanitizeTile (t : CalcTile) : CalcTile :=
  { sqm := sanitizeNum t.sqm, cartons := sanitizeNum t.cartons,
    unitPrice := sanitizeNum t.unitPrice }

/-- Well-formed version of a material line. -/
def sanitizeMaterial (m : CalcMaterial) : CalcMaterial :=
  { quantity := sanitizeNum m.quantity, unitPrice := sanitizeNum m.unitPrice }

/-- Well-formed version of an adjustment line. -/
def sanitizeAdjustment (a : CalcAdjustment) : CalcAdjustment :=
  { amount := sanitizeNum a.amount }

/-- Well-formed version of a document: non-array tile/material/adjustment
fields become empty lists, and every malformed numeric value becomes the
`0` it coerces to. -/
def sanitizeDoc (d : CalcDoc) : CalcDoc :=
  { d with
    tiles := some ((d.tiles.getD []).map sanitizeTile),
    materials := some ((d.materials.getD []).map sanitizeMaterial),
    adjustments := some ((d.adjustments.getD []).map sanitizeAdjustment),
    workmanshipRate := sanitizeNum d.workmanshipRate,
    maintenance := sanitizeNum d.maintenance,
    profitPercentage := sanitizeNum d.profitPercentage,
    depositPercentage := sanitizeNum d.depositPercentage }

/-- Concrete settings profile used by the concrete evaluations below:
coverage rates are pairwise distinct so bucket selection is observable. -/
def sampleSettings : Settings :=
  { sittingRoomTileM2PerCarton := 5,
    roomTileM2PerCarton := 4,
    toiletWallTileM2PerCarton := 6,
    toiletFloorTileM2PerCarton := 7,
    kitchenWallTileM2PerCarton := 8,
    kitchenFloorTileM2PerCarton := 9,
    externalWallTileM2PerCarton := 10,
    stepTileM2PerCarton := 11,
    wallTileM2PerCarton := 12,
    floorTileM2PerCarton := 3/2,
    wastageFactor := 11/10,
    taxPercentage := 15/2,
    showTax := true,
    showMaintenance := true,
    showMaterialsDefault := true,
    showAdjustmentsDefault := true,
    tilePricesBySize := [("60x60", 6500)] }

/-- Concrete blank tile row, as created by the modal's add-tile button. -/
def sampleTile : EditableTile :=
  { category := "", group := some "General", size := some "",
    tileType := "Unknown", sqm := .num 0, cartons := .num 0,
    unitPrice := .num 0, addWastage := some false }

lemma foldl_add_eq_sum_map {α : Type} (f : α → ℚ) (l : List α) (a : ℚ) :
    l.foldl (fun acc x => acc + f x) a = a + (l.map f).sum := by
  induction l generalizing a with
  | nil => simp
  | cons x xs ih => simp [List.foldl, ih]; ring

lemma truthy_scale_eq_match (o : Option ℚ) (x : ℚ) :
    (if jsTruthyNum o then x * (toNum o / 100) else 0) =
      (match o with
        | some p => if p ≠ 0 then x * p / 100 else 0
        | none => 0) := by
  cases o with
  | none => simp [jsTruthyNum]
  | some p =>
      by_cases hp : p = 0 <;> simp [jsTruthyNum, toNum, hp, mul_div_assoc]

/-- C1: for every document and settings profile, `calculateTotals` computes
the summary by the fixed pipeline: `totalSqm` is the sum of all tile sqm
regardless of any visibility flag; `totalTileCost` is the sum over tile
lines of cartons times unitPrice; the pre-profit total is
totalTileCost + totalMaterialCost + workmanshipCost + maintenance
contribution; `profitAmount` is that total times profitPercentage / 100
when profitPercentage is non-null and non-zero, else 0; `subtotal` adds
the profit; `totalAdjustments` is the signed sum of adjustment amounts
when shown; `taxAmount` is the post-adjustment subtotal times
taxPercentage / 100 when showTax, else 0; `grandTotal` adds the tax; and
`depositAmount` is grandTotal times depositPercentage / 100 when
depositPercentage is non-null and non-zero, else 0. -/
theorem C1_totals_pipeline (data : CalcDoc) (settings : Settings) :
    let T := calculateTotals data settings
    let tiles := data.tiles.getD []
    let maintenanceContribution :=
      if data.showMaintenance.getD settings.showMaintenance then toNum data.maintenance else 0
    let preProfitTotal :=
      T.totalTileCost + T.totalMaterialCost + T.workmanshipCost + maintenanceContribution
    let postAdjustmentSubtotal := T.subtotal + T.totalAdjustments
    T.totalSqm = (tiles.map (fun t => toNum t.sqm)).sum ∧
    T.totalTileCost = (tiles.map (fun t => toNum t.cartons * toNum t.unitPrice)).sum ∧
    T.profitAmount =
      (match data.profitPercentage with
        | some p => if p ≠ 0 then preProfitTotal * p / 100 else 0
        | none => 0) ∧
    T.subtotal = preProfitTotal + T.profitAmount ∧
    T.totalAdjustments =
      (if data.showAdjustments.getD true then
        ((data.adjustments.getD []).map (fun a => toNum a.amount)).sum
      else 0) ∧
    T.taxAmount =
      (if data.showTax.getD settings.showTax then
        postAdjustmentSubtotal * settings.taxPercentage / 100
      else 0) ∧
    T.grandTotal = postAdjustmentSubtotal + T.taxAmount ∧
    T.depositAmount =
      (match data.depositPercentage with
        | some p => if p ≠ 0 then T.grandTotal * p / 100 else 0
        | none => 0) := by
  simp only [calculateTotals]
  refine ⟨?_, ?_, ?_, ?_, ?_, ?_, ?_, ?_⟩
  · simp [foldl_add_eq_sum_map]
  · simp [foldl_add_eq_sum_map]
  · rw [truthy_scale_eq_match data.profitPercentage]
    cases data.profitPercentage with
    | none => rfl
    | some p =>
        by_cases hp : p = 0
        · simp [hp]
        · simp only [hp, ne_eq, not_false_iff, if_true, add_assoc]
  · simp only [add_assoc]
  · cases data.adjustments with
    | none => simp
    | some adjs => simp [foldl_add_eq_sum_map]
  · simp [mul_div_assoc]
  · simp only [add_assoc]
  · rw [truthy_scale_eq_match data.depositPercentage]

lemma toNum_sanitizeNum (o : Option ℚ) : toNum (sanitizeNum o) = toNum o := rfl

lemma jsTruthy_sanitizeNum (o : Option ℚ) :
    jsTruthyNum (sanitizeNum o) = jsTruthyNum o := by
  cases o with
  | none => simp [sanitizeNum, jsTruthyNum, toNum]
  | some p => rfl

/-- C2: on a document whose tile, material, or adjustment entries carry
non-numeric or missing numeric fields, or whose tiles or materials fields
are not arrays, `calculateTotals` is total (the embedding is a plain
function into rational-valued summaries) and returns exactly the summary
of the sanitized document in which every malformed value is replaced by
0 — so each malformed value contributes exactly 0; in particular a tile
line whose `unitPrice` is non-numeric contributes 0 to `totalTileCost`. -/
theorem C2_malformed_degrade (d : CalcDoc) (s : Settings) (t : CalcTile)
    (rest : List CalcTile) (ht : t.unitPrice = none) :
    calculateTotals d s = calculateTotals (sanitizeDoc d) s ∧
    (calculateTotals { d with tiles := some (t :: rest) } s).totalTileCost =
      (calculateTotals { d with tiles := some rest } s).totalTileCost := by
  constructor
  · simp only [calculateTotals, sanitizeDoc]
    cases d.adjustments with
    | none =>
        simp [List.foldl_map, sanitizeTile, sanitizeMaterial, sanitizeAdjustment,
          toNum_sanitizeNum, jsTruthy_sanitizeNum]
    | some adjs =>
        simp [List.foldl_map, sanitizeTile, sanitizeMaterial, sanitizeAdjustment,
          toNum_sanitizeNum, jsTruthy_sanitizeNum]
  · simp [calculateTotals, foldl_add_eq_sum_map, ht, toNum]

/-- C2 witness: a concrete malformed document (tile with non-numeric
unitPrice) evaluates to the sanitized totals, and the malformed line
contributes 0. -/
theorem C2_malformed_degrade_witness :
    let t : CalcTile := { sqm := some 4, cartons := some 3, unitPrice := none }
    let d : CalcDoc :=
      { tiles := none, materials := none, workmanshipRate := none,
        maintenance := none, profitPercentage := none, showMaterials := none,
        showAdjustments := none, showWorkmanship := none,
        showMaintenance := none, showTax := none, adjustments := none,
        depositPercentage := none }
    let s : Settings :=
      { sittingRoomTileM2PerCarton := 2, roomTileM2PerCarton := 2,
        toiletWallTileM2PerCarton := 2, toiletFloorTileM2PerCarton := 2,
        kitchenWallTileM2PerCarton := 2, kitchenFloorTileM2PerCarton := 2,
        externalWallTileM2PerCarton := 2, stepTileM2PerCarton := 2,
        wallTileM2PerCarton := 2, floorTileM2PerCarton := 2,
        wastageFactor := 11/10, taxPercentage := 15/2, showTax := false,
        showMaintenance := true, showMaterialsDefault := true,
        showAdjustmentsDefault := true, tilePricesBySize := [] }
    calculateTotals d s = calculateTotals (sanitizeDoc d) s ∧
    (calculateTotals { d with tiles := some [t] } s).totalTileCost =
      (calculateTotals { d with tiles := some [] } s).totalTileCost :=
  C2_malformed_degrade _ _ _ _ rfl

/-- C3: for each visibility flag among showMaterials, showAdjustments,
showWorkmanship, showMaintenance and showTax, setting the flag to false
makes the corresponding contribution in the summary exactly 0
(`totalMaterialCost`, `totalAdjustments`, `workmanshipCost`, the
maintenance contribution inside `workmanshipAndMaintenance`, `taxAmount`
respectively), and setting the flag back to true on the otherwise
unchanged document reproduces exactly the `grandTotal` that would have
been computed had the flag always been true. -/
theorem C3_visibility_zeroing (d : CalcDoc) (s : Settings) :
    ((calculateTotals { d with showMaterials := some false } s).totalMaterialCost = 0 ∧
      (calculateTotals { { d with showMaterials := some false } with
          showMaterials := some true } s).grandTotal =
        (calculateTotals { d with showMaterials := some true } s).grandTotal) ∧
    ((calculateTotals { d with showAdjustments := some false } s).totalAdjustments = 0 ∧
      (calculateTotals { { d with showAdjustments := some false } with
          showAdjustments := some true } s).grandTotal =
        (calculateTotals { d with showAdjustments := some true } s).grandTotal) ∧
    ((calculateTotals { d with showWorkmanship := some false } s).workmanshipCost = 0 ∧
      (calculateTotals { { d with showWorkmanship := some false } with
          showWorkmanship := some true } s).grandTotal =
        (calculateTotals { d with showWorkmanship := some true } s).grandTotal) ∧
    ((calculateTotals { d with showMaintenance := some false } s).workmanshipAndMaintenance =
        (calculateTotals { d with showMaintenance := some false } s).workmanshipCost ∧
      (calculateTotals { { d with showMaintenance := some false } with
          showMaintenance := some true } s).grandTotal =
        (calculateTotals { d with showMaintenance := some true } s).grandTotal) ∧
    ((calculateTotals { d with showTax := some false } s).taxAmount = 0 ∧
      (calculateTotals { { d with showTax := some false } with
          showTax := some true } s).grandTotal =
        (calculateTotals { d with showTax := some true } s).grandTotal) := by
  refine ⟨⟨?_, rfl⟩, ⟨?_, rfl⟩, ⟨?_, rfl⟩, ⟨?_, rfl⟩, ⟨?_, rfl⟩⟩ <;>
    simp [calculateTotals]

/-- C9: `calculateTotals` applies these defaults for absent optional
fields: an absent showMaterials or showAdjustments defaults to true and
the settings fields `showMaterialsDefault` / `showAdjustmentsDefault` are
never consulted; an absent showTax or showMaintenance falls back to the
corresponding settings flag; an absent showWorkmanship defaults to true;
a document without a depositPercentage field yields depositAmount = 0 and
one without an adjustments field yields totalAdjustments = 0. -/
theorem C9_absent_field_defaults (d : CalcDoc) (s : Settings) (b b' : Bool) :
    calculateTotals { d with showMaterials := none } s =
      calculateTotals { d with showMaterials := some true } s ∧
    calculateTotals { d with showAdjustments := none } s =
      calculateTotals { d with showAdjustments := some true } s ∧
    calculateTotals d
        { s with showMaterialsDefault := b, showAdjustmentsDefault := b' } =
      calculateTotals d s ∧
    calculateTotals { d with showTax := none } s =
      calculateTotals { d with showTax := some s.showTax } s ∧
    calculateTotals { d with showMaintenance := none } s =
      calculateTotals { d with showMaintenance := some s.showMaintenance } s ∧
    calculateTotals { d with showWorkmanship := none } s =
      calculateTotals { d with showWorkmanship := some true } s ∧
    (calculateTotals { d with depositPercentage := none } s).depositAmount = 0 ∧
    (calculateTotals { d with adjustments := none } s).totalAdjustments = 0 := by
  refine ⟨rfl, rfl, rfl, rfl, rfl, rfl, ?_, ?_⟩ <;>
    simp [calculateTotals, jsTruthyNum]

/-- C10: the calculation is a pure read-compute-return operation — under
the state-passing embedding of one call, the document and settings coming
out of the call are exactly the ones that went in (the source body never
assigns to either), and a second invocation on that unchanged state
returns an identical summary. -/
theorem C10_pure_idempotent (d : CalcDoc) (s : Settings) :
    (calculateTotalsCall d s).2.1 = d ∧
    (calculateTotalsCall d s).2.2 = s ∧
    (calculateTotalsCall (calculateTotalsCall d s).2.1
        (calculateTotalsCall d s).2.2).1 = (calculateTotalsCall d s).1 :=
  ⟨rfl, rfl, rfl⟩

/-- C4: for every sqm > 0 and coverage rate > 0, the sqm-driven branch of
`handleTileChange` stores `cartons = ceil(sqm / coverageRate)`, and this
ceiling satisfies `cartons * coverageRate >= sqm`,
`(cartons - 1) * coverageRate < sqm` when `cartons > 0`, and maps an exact
integer multiple of the rate to that integer, not one more. -/
theorem C4_sqm_driven_ceiling (settings : Settings) (tile : EditableTile)
    (s : ℚ) (hs : 0 < s)
    (hr : 0 < getCoverageRate tile.category settings) :
    (handleTileChange settings tile (.sqm (.num s))).cartons =
      .num ((ceilDiv s (getCoverageRate tile.category settings) : ℤ) : ℚ) ∧
    s ≤ (ceilDiv s (getCoverageRate tile.category settings) : ℚ) *
        getCoverageRate tile.category settings ∧
    (0 < ceilDiv s (getCoverageRate tile.category settings) →
      ((ceilDiv s (getCoverageRate tile.category settings) : ℚ) - 1) *
          getCoverageRate tile.category settings < s) ∧
    (∀ n : ℤ, s = (n : ℚ) * getCoverageRate tile.category settings →
      ceilDiv s (getCoverageRate tile.category settings) = n) := by
  refine ⟨?_, ?_, ?_, ?_⟩
  · simp [handleTileChange, parseNum, hs]
  · have h1 : s / getCoverageRate tile.category settings ≤
        (⌈s / getCoverageRate tile.category settings⌉ : ℚ) := Int.le_ceil _
    have h2 := div_mul_cancel₀ s hr.ne'
    unfold ceilDiv
    nlinarith [mul_le_mul_of_nonneg_right h1 hr.le]
  · intro hc
    have h3 : (⌈s / getCoverageRate tile.category settings⌉ : ℚ) <
        s / getCoverageRate tile.category settings + 1 := Int.ceil_lt_add_one _
    have h2 := div_mul_cancel₀ s hr.ne'
    unfold ceilDiv
    nlinarith [mul_lt_mul_of_pos_right (show (⌈s / getCoverageRate tile.category settings⌉ : ℚ) - 1 < s / getCoverageRate tile.category settings by linarith) hr]
  · intro n hn
    have h4 : s / getCoverageRate tile.category settings = (n : ℚ) := by
      rw [hn]
      field_simp
    unfold ceilDiv
    rw [h4, Int.ceil_intCast]

/-- C4 witness: with the sample profile (generic floor rate 1.5) a tile of
95 sqm gets ceil(95 / 1.5) = 64 cartons satisfying the bracketing
inequalities. -/
theorem C4_sqm_driven_ceiling_witness :
    (0:ℚ) < 95 ∧
    0 < getCoverageRate sampleTile.category sampleSettings ∧
    (handleTileChange sampleSettings sampleTile (.sqm (.num 95))).cartons =
      .num ((ceilDiv 95 (getCoverageRate sampleTile.category sampleSettings) : ℤ) : ℚ) ∧
    ceilDiv 95 (getCoverageRate sampleTile.category sampleSettings) = 64 :=
  have hr : (0:ℚ) < getCoverageRate sampleTile.category sampleSettings := by
    rw [show getCoverageRate sampleTile.category sampleSettings = 3/2 from rfl]
    norm_num
  ⟨by norm_num, hr,
    (C4_sqm_driven_ceiling sampleSettings sampleTile 95 (by norm_num) hr).1,
    by
      unfold ceilDiv
      rw [show getCoverageRate sampleTile.category sampleSettings = 3/2 from rfl,
        Int.ceil_eq_iff]
      norm_num⟩

lemma isJsSpace_lowerChar (c : Char) (h : isJsSpace c = true) :
    lowerChar c = c := by
  unfold isJsSpace at h
  simp only [Bool.or_eq_true, beq_iff_eq] at h
  rcases h with ((h | h) | h) | h <;> subst h <;> decide

lemma lowerTrim_of_all_space (s : String) (h : s.data.all isJsSpace = true) :
    lowerTrim s = "" := by
  unfold lowerTrim trimList
  have h1 : ∀ x ∈ s.data.map lowerChar, isJsSpace x = true := by
    intro x hx
    rcases List.mem_map.mp hx with ⟨c, hc, rfl⟩
    have hc2 : isJsSpace c = true := by
      have := List.all_eq_true.mp h c hc
      simpa using this
    rw [isJsSpace_lowerChar c hc2]
    exact hc2
  rw [List.dropWhile_eq_nil_iff.mpr h1]
  rfl

lemma getCoverageRate_of_trim_empty (category : String) (s : Settings)
    (h : lowerTrim category = "") :
    getCoverageRate category s = s.floorTileM2PerCarton := by
  simp only [getCoverageRate, h]
  rfl

/-- C5 counterexample: the category "Dining Kitchen Wall" contains both
"kitchen" and "wall", yet `getCoverageRate` resolves it to the
sitting-room rate (the "dining" keyword of the earlier sitting-room
bucket wins), not the kitchen-wall rate, refuting the claim that a
category containing both "kitchen" and "wall" always resolves to the
kitchen-wall rate. -/
theorem C5_counterexample :
    strIncludes (lowerTrim "Dining Kitchen Wall") "kitchen" = true ∧
    strIncludes (lowerTrim "Dining Kitchen Wall") "wall" = true ∧
    getCoverageRate "Dining Kitchen Wall" sampleSettings =
      sampleSettings.sittingRoomTileM2PerCarton ∧
    getCoverageRate "Dining Kitchen Wall" sampleSettings ≠
      sampleSettings.kitchenWallTileM2PerCarton :=
  ⟨by decide, by decide, rfl, by decide⟩

/-- C5 (amended): coverage-rate resolution depends only on the category
string, testing the ordered keyword buckets with more specific buckets
before generic ones; a category containing both "kitchen" and "wall" that
matches none of the earlier buckets (sitting/living/parlour/dining,
bedroom/room/guest/store, toilet- and bathroom-wall/floor) resolves to
the kitchen-wall rate, never the generic wall rate; a category matching
no bucket and not containing "wall", and in particular an empty or
whitespace-only category, resolves to the generic floor-tile rate without
throwing; the tile's size field never influences the computed carton
count, because the coverage rate is resolved from the category alone. -/
theorem C5_category_resolution_amended (category : String) (s : Settings) :
    (strIncludes (lowerTrim category) "kitchen" = true →
      strIncludes (lowerTrim category) "wall" = true →
      isSittingBucket (lowerTrim category) = false →
      isRoomBucket (lowerTrim category) = false →
      isToiletWallBucket (lowerTrim category) = false →
      isToiletFloorBucket (lowerTrim category) = false →
      getCoverageRate category s = s.kitchenWallTileM2PerCarton) ∧
    ((isSittingBucket (lowerTrim category) = false ∧
      isRoomBucket (lowerTrim category) = false ∧
      isToiletWallBucket (lowerTrim category) = false ∧
      isToiletFloorBucket (lowerTrim category) = false ∧
      isKitchenWallBucket (lowerTrim category) = false ∧
      isKitchenFloorBucket (lowerTrim category) = false ∧
      isExternalBucket (lowerTrim category) = false ∧
      isStepBucket (lowerTrim category) = false ∧
      strIncludes (lowerTrim category) "wall" = false) →
      getCoverageRate category s = s.floorTileM2PerCarton) ∧
    (category.data.all isJsSpace = true →
      getCoverageRate category s = s.floorTileM2PerCarton) ∧
    (∀ (t : EditableTile) (sz : String) (v : JSNumVal),
      (handleTileChange s { t with size := some sz } (.sqm v)).cartons =
        (handleTileChange s t (.sqm v)).cartons) := by
  refine ⟨?_, ?_, ?_, ?_⟩
  · intro h1 h2 h3 h4 h5 h6
    simp [getCoverageRate, isKitchenWallBucket, h1, h2, h3, h4, h5, h6]
  · rintro ⟨a1, a2, a3, a4, a5, a6, a7, a8, a9⟩
    simp [getCoverageRate, a1, a2, a3, a4, a5, a6, a7, a8, a9]
  · intro h
    exact getCoverageRate_of_trim_empty category s (lowerTrim_of_all_space category h)
  · intro t sz v
    simp only [handleTileChange]
    rcases v with q | q | _ | _
    all_goals simp only [parseNum]
    all_goals split_ifs <;> rfl

/-- C5 witness: "Kitchen Wall" resolves to the kitchen-wall rate, a
whitespace-only category and an unmatched category resolve to the generic
floor rate. -/
theorem C5_category_resolution_witness :
    getCoverageRate "Kitchen Wall" sampleSettings =
      sampleSettings.kitchenWallTileM2PerCarton ∧
    getCoverageRate "   " sampleSettings = sampleSettings.floorTileM2PerCarton ∧
    getCoverageRate "Unrecognized Blob" sampleSettings =
      sampleSettings.floorTileM2PerCarton :=
  ⟨(C5_category_resolution_amended "Kitchen Wall" sampleSettings).1
      (by decide) (by decide) (by decide) (by decide) (by decide) (by decide),
    (C5_category_resolution_amended "   " sampleSettings).2.2.1 (by decide),
    (C5_category_resolution_amended "Unrecognized Blob" sampleSettings).2.1
      ⟨by decide, by decide, by decide, by decide, by decide, by decide,
        by decide, by decide, by decide⟩⟩

/-- C6: the deterministic editing path never modifies `unitPrice` except
through an explicit unitPrice edit: updating sqm, cartons, category, size
or the wastage toggle leaves `unitPrice` unchanged; in particular a line
item carrying an explicit `unitPrice` of 9999 retains 9999 across a size
edit even when that size heads the `tilePricesBySize` rule list with a
different price, and the tile resulting from an edit does not depend on
`tilePricesBySize` at all. -/
theorem C6_unitPrice_precedence (st : Settings) (t : EditableTile)
    (v : JSNumVal) (c sz sz' : String) (b : Bool) (p : ℚ)
    (L : List (String × ℚ)) :
    (handleTileChange st t (.sqm v)).unitPrice = t.unitPrice ∧
    (handleTileChange st t (.cartons v)).unitPrice = t.unitPrice ∧
    (handleTileChange st t (.category c)).unitPrice = t.unitPrice ∧
    (handleTileChange st t (.size sz)).unitPrice = t.unitPrice ∧
    (handleTileChange st t (.addWastage b)).unitPrice = t.unitPrice ∧
    (handleTileChange { st with tilePricesBySize := (sz', p) :: L }
        { t with size := some sz', unitPrice := .num 9999 }
        (.size sz')).unitPrice = .num 9999 ∧
    handleTileChange { st with tilePricesBySize := L } t (.sqm v) =
      handleTileChange st t (.sqm v) := by
  refine ⟨?_, ?_, ?_, rfl, ?_, rfl, rfl⟩
  · simp only [handleTileChange]
    rcases v with q | q | _ | _ <;> simp only [parseNum] <;>
      split_ifs <;> rfl
  · simp only [handleTileChange]
    rcases v with q | q | _ | _ <;> simp only [parseNum] <;>
      split_ifs <;> rfl
  · simp only [handleTileChange]
    rcases h : parseNum t.sqm with _ | q
    all_goals simp only [h]
    all_goals split_ifs <;> rfl
  · simp only [handleTileChange]
    rcases h : parseNum t.sqm with _ | q
    all_goals simp only [h]
    all_goals split_ifs <;> rfl

/-- C7 counterexample: with coverage rate 9/250 = 0.036 (> 0) and
cartons = 1, the cartons-driven rule stores sqm = round2(0.036) = 0.04,
and feeding that sqm back through the sqm-driven rule yields
ceil(0.04 / 0.036) = 2 cartons, not 1 — the claimed round trip fails for
a rate not expressible in 2 decimal places. -/
theorem C7_counterexample :
    0 < getCoverageRate sampleTile.category
        { sampleSettings with floorTileM2PerCarton := 9/250 } ∧
    (handleTileChange { sampleSettings with floorTileM2PerCarton := 9/250 }
        sampleTile (.cartons (.num 1))).sqm = .num (1/25) ∧
    (handleTileChange { sampleSettings with floorTileM2PerCarton := 9/250 }
        (handleTileChange { sampleSettings with floorTileM2PerCarton := 9/250 }
          sampleTile (.cartons (.num 1)))
        (.sqm (.num (1/25)))).cartons = .num 2 ∧
    (JSNumVal.num (2:ℚ)) ≠ .num (1:ℚ) := by
  have hrate : getCoverageRate sampleTile.category
      { sampleSettings with floorTileM2PerCarton := 9/250 } = 9/250 := rfl
  have ht1 : handleTileChange { sampleSettings with floorTileM2PerCarton := 9/250 }
      sampleTile (.cartons (.num 1)) =
      { sampleTile with cartons := .num 1, sqm := .num (1/25) } := by
    simp only [handleTileChange, parseNum, hrate]
    rw [if_pos (by norm_num : (1:ℚ) > 0)]
    norm_num [round2]
  refine ⟨by rw [hrate]; norm_num, by rw [ht1], ?_, by simp⟩
  rw [ht1]
  have hc : (⌈(1/25 : ℚ) / (9/250)⌉ : ℤ) = 2 := by
    rw [Int.ceil_eq_iff]
    constructor <;> norm_num
  simp only [handleTileChange, parseNum, hrate]
  rw [if_pos (by norm_num : (1/25:ℚ) > 0)]
  simp [ceilDiv]
  rw [show (25⁻¹ : ℚ) = 1/25 from by norm_num, hc]
  norm_num

/-- C7 (amended): for every coverage rate r > 0 that is expressible in at
most 2 decimal places (r = k/100 for an integer k) and every integer
cartons c > 0, deriving sqm by the cartons-driven rule
(sqm = round2(c * r)) and feeding that sqm back through the sqm-driven
rule (cartons = ceil(sqm / r)) reproduces the same c. -/
theorem C7_cartons_roundtrip_amended (st : Settings) (t : EditableTile)
    (c k : ℤ) (hc : 0 < c)
    (hr : 0 < getCoverageRate t.category st)
    (hk : getCoverageRate t.category st = (k : ℚ) / 100) :
    (handleTileChange st (handleTileChange st t (.cartons (.num ((c:ℤ) : ℚ))))
        (.sqm (handleTileChange st t (.cartons (.num ((c:ℤ) : ℚ)))).sqm)).cartons =
      .num ((c : ℤ) : ℚ) := by
  have hcq : (0:ℚ) < ((c:ℤ) : ℚ) := by exact_mod_cast hc
  have hmul : (0:ℚ) < ((c:ℤ) : ℚ) * getCoverageRate t.category st :=
    mul_pos hcq hr
  have hround : round2 (((c:ℤ) : ℚ) * getCoverageRate t.category st) =
      ((c:ℤ) : ℚ) * getCoverageRate t.category st := by
    unfold round2
    rw [hk]
    rw [show ((c:ℤ) : ℚ) * ((k:ℚ) / 100) * 100 + 1/2 =
        ((c * k : ℤ) : ℚ) + 1/2 from by push_cast; ring]
    rw [Int.floor_int_add, show ⌊(1/2 : ℚ)⌋ = 0 from by norm_num]
    push_cast
    ring
  have ht1 : handleTileChange st t (.cartons (.num ((c:ℤ) : ℚ))) =
      { t with cartons := .num ((c:ℤ) : ℚ),
               sqm := .num (round2 (((c:ℤ) : ℚ) *
                 getCoverageRate t.category st)) } := by
    simp only [handleTileChange, parseNum]
    rw [if_pos hcq]
  rw [ht1]
  simp only [hround]
  simp only [handleTileChange, parseNum]
  rw [if_pos hmul]
  have hdiv : ((c:ℤ) : ℚ) * getCoverageRate t.category st /
      getCoverageRate t.category st = ((c:ℤ) : ℚ) :=
    mul_div_cancel_right₀ _ hr.ne'
  simp [ceilDiv, hdiv]

/-- C7 witness: with the sample profile (floor rate 1.5 = 150/100) and
4 cartons, the derived sqm 6.00 feeds back to exactly 4 cartons. -/
theorem C7_cartons_roundtrip_witness :
    (handleTileChange sampleSettings
        (handleTileChange sampleSettings sampleTile (.cartons (.num ((4:ℤ) : ℚ))))
        (.sqm (handleTileChange sampleSettings sampleTile
          (.cartons (.num ((4:ℤ) : ℚ)))).sqm)).cartons =
      .num ((4:ℤ) : ℚ) :=
  C7_cartons_roundtrip_amended sampleSettings sampleTile 4 150 (by norm_num)
    (by
      rw [show getCoverageRate sampleTile.category sampleSettings = 3/2 from rfl]
      norm_num)
    (by
      rw [show getCoverageRate sampleTile.category sampleSettings = 3/2 from rfl]
      norm_num)

lemma round2_sub_bounds (x : ℚ) :
    x - 1/200 < round2 x ∧ round2 x ≤ x + 1/200 := by
  have h1 := Int.floor_le (x * 100 + 1/2)
  have h2 := Int.lt_floor_add_one (x * 100 + 1/2)
  unfold round2
  constructor
  · rw [lt_div_iff₀ (show (0:ℚ) < 100 from by norm_num)]
    linarith
  · rw [div_le_iff₀ (show (0:ℚ) < 100 from by norm_num)]
    linarith

lemma round2_nonneg (x : ℚ) (hx : 0 < x) : 0 ≤ round2 x := by
  unfold round2
  have h : (0:ℤ) ≤ ⌊x * 100 + 1/2⌋ := Int.floor_nonneg.mpr (by linarith)
  exact div_nonneg (by exact_mod_cast h) (by norm_num)

/-- C8: for a tile holding numeric sqm > 0 (with wastage factor at least
1, as the profile requires a multiplier > 1), switching the wastage
toggle on sets sqm to sqm * wastageFactor rounded to 2 decimals and
switching it off sets sqm to sqm / wastageFactor rounded to 2 decimals,
in both cases recomputing cartons as the ceiling of the new sqm over the
coverage rate, never adjusting them independently; applying add then
remove returns a sqm within 0.01 of the original; and for a sqm that is
0, negative, or non-numeric the toggle leaves sqm and cartons unchanged. -/
theorem C8_wastage_toggle (st : Settings) (t : EditableTile) (s : ℚ)
    (hwf : 1 ≤ st.wastageFactor) (hs : 0 < s) (hsqm : t.sqm = .num s) :
    ((handleTileChange st t (.addWastage true)).sqm =
        .num (round2 (s * st.wastageFactor)) ∧
      (handleTileChange st t (.addWastage true)).cartons =
        .num ((ceilDiv (round2 (s * st.wastageFactor))
          (getCoverageRate t.category st) : ℤ) : ℚ)) ∧
    (∀ (g : ℚ) (tg : EditableTile), 0 < g → tg.sqm = .num g →
      (handleTileChange st tg (.addWastage false)).sqm =
          .num (round2 (g / st.wastageFactor)) ∧
        (handleTileChange st tg (.addWastage false)).cartons =
          .num ((ceilDiv (round2 (g / st.wastageFactor))
            (getCoverageRate tg.category st) : ℤ) : ℚ)) ∧
    (∃ s2 : ℚ,
      (handleTileChange st (handleTileChange st t (.addWastage true))
          (.addWastage false)).sqm = .num s2 ∧
      |s2 - s| ≤ 1/100) ∧
    (∀ (tb : EditableTile) (b : Bool),
      (parseNum tb.sqm = none ∨ ∃ q, parseNum tb.sqm = some q ∧ q ≤ 0) →
      (handleTileChange st tb (.addWastage b)).sqm = tb.sqm ∧
      (handleTileChange st tb (.addWastage b)).cartons = tb.cartons) := by
  have hwpos : (0:ℚ) < st.wastageFactor := lt_of_lt_of_le zero_lt_one hwf
  have hon : handleTileChange st t (.addWastage true) =
      { t with addWastage := some true,
               sqm := .num (round2 (s * st.wastageFactor)),
               cartons := .num ((ceilDiv (round2 (s * st.wastageFactor))
                 (getCoverageRate t.category st) : ℤ) : ℚ) } := by
    simp only [handleTileChange, hsqm, parseNum]
    rw [if_pos hs]
    simp
  have hoff : ∀ (g : ℚ) (tg : EditableTile), 0 < g → tg.sqm = .num g →
      handleTileChange st tg (.addWastage false) =
      { tg with addWastage := some false,
                sqm := .num (round2 (g / st.wastageFactor)),
                cartons := .num ((ceilDiv (round2 (g / st.wastageFactor))
                  (getCoverageRate tg.category st) : ℤ) : ℚ) } := by
    intro g tg hg hgs
    simp only [handleTileChange, hgs, parseNum]
    rw [if_pos hg]
    simp
  refine ⟨⟨by rw [hon], by rw [hon]⟩, ?_, ?_, ?_⟩
  · intro g tg hg hgs
    exact ⟨by rw [hoff g tg hg hgs], by rw [hoff g tg hg hgs]⟩
  · have hb1 := round2_sub_bounds (s * st.wastageFactor)
    by_cases hap : 0 < round2 (s * st.wastageFactor)
    · refine ⟨round2 (round2 (s * st.wastageFactor) / st.wastageFactor), ?_, ?_⟩
      · rw [hon, hoff (round2 (s * st.wastageFactor)) _ hap (by rfl)]
      · have hb2 := round2_sub_bounds (round2 (s * st.wastageFactor) / st.wastageFactor)
        have hd1 : round2 (s * st.wastageFactor) / st.wastageFactor ≤
            (s * st.wastageFactor + 1/200) / st.wastageFactor :=
          (div_le_div_iff_of_pos_right hwpos).mpr hb1.2
        have hd2 : (s * st.wastageFactor - 1/200) / st.wastageFactor <
            round2 (s * st.wastageFactor) / st.wastageFactor :=
          (div_lt_div_iff_of_pos_right hwpos).mpr hb1.1
        have he1 : (s * st.wastageFactor + 1/200) / st.wastageFactor =
            s + (1/200) / st.wastageFactor := by
          rw [add_div, mul_div_cancel_right₀ _ hwpos.ne']
        have he2 : (s * st.wastageFactor - 1/200) / st.wastageFactor =
            s - (1/200) / st.wastageFactor := by
          rw [sub_div, mul_div_cancel_right₀ _ hwpos.ne']
        have he3 : (1/200 : ℚ) / st.wastageFactor ≤ 1/200 :=
          div_le_self (by norm_num) hwf
        have he4 : (0:ℚ) < (1/200 : ℚ) / st.wastageFactor :=
          div_pos (by norm_num) hwpos
        rw [abs_le]
        constructor <;> [linarith [hd2, hb2.1]; linarith [hd1, hb2.2]]
    · have ha0 : round2 (s * st.wastageFactor) = 0 :=
        le_antisymm (not_lt.mp hap) (round2_nonneg _ (mul_pos hs hwpos))
      have hsmall : s * st.wastageFactor < 1/200 := by
        have := hb1.1
        rw [ha0] at this
        linarith
      have hsle : s ≤ s * st.wastageFactor := by
        nlinarith
      refine ⟨0, ?_, ?_⟩
      · rw [hon]
        simp only [handleTileChange, parseNum, ha0]
        rw [if_neg (by norm_num)]
      · rw [abs_le]
        constructor <;> [linarith; linarith]
  · intro tb b hbad
    rcases hbad with hnone | ⟨q, hq, hq0⟩
    · constructor <;> · simp only [handleTileChange, hnone]
    · constructor <;>
        · simp only [handleTileChange, hq]
          rw [if_neg (not_lt.mpr hq0)]

/-- C8 witness: a 10 sqm tile with wastage factor 1.1 becomes 11.00 sqm
with recomputed cartons when the toggle is switched on, and switching it
back off returns a sqm within 0.01 of 10. -/
theorem C8_wastage_toggle_witness :
    (1 ≤ sampleSettings.wastageFactor ∧ (0:ℚ) < 10) ∧
    (handleTileChange sampleSettings { sampleTile with sqm := .num 10 }
        (.addWastage true)).sqm =
      .num (round2 (10 * sampleSettings.wastageFactor)) ∧
    (handleTileChange sampleSettings { sampleTile with sqm := .num 10 }
        (.addWastage true)).cartons =
      .num ((ceilDiv (round2 (10 * sampleSettings.wastageFactor))
        (getCoverageRate ({ sampleTile with sqm := .num 10 } :
          EditableTile).category sampleSettings) : ℤ) : ℚ) ∧
    (∃ s2 : ℚ,
      (handleTileChange sampleSettings
          (handleTileChange sampleSettings
            { sampleTile with sqm := .num 10 } (.addWastage true))
          (.addWastage false)).sqm = .num s2 ∧
      |s2 - 10| ≤ 1/100) :=
  have hwf : 1 ≤ sampleSettings.wastageFactor := by
    rw [show sampleSettings.wastageFactor = 11/10 from rfl]
    norm_num
  have h := C8_wastage_toggle sampleSettings
    { sampleTile with sqm := .num 10 } 10 hwf (by norm_num) rfl
  ⟨⟨hwf, by norm_num⟩, h.1.1, h.1.2, h.2.2.1⟩

end TQF
